import Mathlib

/-!
Verification of the static type-tagging layer of the rasn ASN.1 library
(`src/types.rs`).  The layer associates every representable Rust type with
a compile-time ASN.1 tag and provides implicit/explicit re-tagging
wrappers.  We embed the closed set of `AsnType` and `SequenceOf` trait
implementations appearing in `src/types.rs` as a total function over a
grammar of Rust type expressions, and prove the stated tag-derivation
properties about it.
-/

namespace Rasn

/-- Modelled from the spec: the tag-class component of an ASN.1 tag.
The `Class` enumeration itself is defined in the repository module
`tag` (re-exported by `src/types.rs` via `pub use super::tag::{Class, Tag}`),
whose source is not part of the excerpt.  Per the spec, the classes are
Universal, Application, Context-specific and Private. -/
inductive Class where
  | universal
  | application
  | contextSpecific
  | privateClass
deriving DecidableEq, Repr

/-- Modelled from the spec: an ASN.1 tag, an immutable pair of a class and
a tag number, compared by structural equality only.  The `Tag` struct is
defined in the repository module `tag`, not part of the excerpt. -/
structure Tag where
  tagClass : Class
  number : Nat
deriving DecidableEq, Repr

namespace Tag

/-- Modelled from the spec: the sentinel "none" tag, reused from the
end-of-contents semantics of X.690 (Universal class, number 0), which
CHOICE-representing types must declare. -/
def EOC : Tag := ⟨Class.universal, 0⟩

/-- Universal tag constant for BOOLEAN (X.680 number 1). -/
def BOOL : Tag := ⟨Class.universal, 1⟩

/-- Universal tag constant for INTEGER (X.680 number 2). -/
def INTEGER : Tag := ⟨Class.universal, 2⟩

/-- Universal tag constant for BIT STRING (X.680 number 3). -/
def BIT_STRING : Tag := ⟨Class.universal, 3⟩

/-- Universal tag constant for OCTET STRING (X.680 number 4). -/
def OCTET_STRING : Tag := ⟨Class.universal, 4⟩

/-- Universal tag constant for NULL (X.680 number 5). -/
def NULL : Tag := ⟨Class.universal, 5⟩

/-- Universal tag constant for OBJECT IDENTIFIER (X.680 number 6). -/
def OBJECT_IDENTIFIER : Tag := ⟨Class.universal, 6⟩

/-- Universal tag constant for UTF8String (X.680 number 12). -/
def UTF8_STRING : Tag := ⟨Class.universal, 12⟩

/-- Universal tag constant for SEQUENCE (X.680 number 16). -/
def SEQUENCE : Tag := ⟨Class.universal, 16⟩

/-- Universal tag constant for SET (X.680 number 17). -/
def SET : Tag := ⟨Class.universal, 17⟩

/-- Universal tag constant for PrintableString (X.680 number 19). -/
def PRINTABLE_STRING : Tag := ⟨Class.universal, 19⟩

/-- Universal tag constant for IA5String (X.680 number 22). -/
def IA5_STRING : Tag := ⟨Class.universal, 22⟩

/-- Universal tag constant for UTCTime (X.680 number 23). -/
def UTC_TIME : Tag := ⟨Class.universal, 23⟩

/-- Universal tag constant for GeneralizedTime (X.680 number 24). -/
def GENERALIZED_TIME : Tag := ⟨Class.universal, 24⟩

/-- Universal tag constant for VisibleString (X.680 number 26). -/
def VISIBLE_STRING : Tag := ⟨Class.universal, 26⟩

/-- Universal tag constant for UniversalString (X.680 number 28). -/
def UNIVERSAL_STRING : Tag := ⟨Class.universal, 28⟩

/-- Universal tag constant for BmpString (X.680 number 30). -/
def BMP_STRING : Tag := ⟨Class.universal, 30⟩

end Tag

/-- Grammar of the Rust type expressions over which `src/types.rs` declares
`AsnType` and `SequenceOf` implementations.  The nullary constructors are
the concrete types given an implementation by the `asn_type!` macro
invocation; `other n` stands for an arbitrary Rust type carrying no
`AsnType` implementation; the remaining constructors are the generic
containers, modifiers and wrappers of the blanket implementations.
`implicit tg v` is `Implicit<tg, V>` and `explicit tg v` is
`Explicit<tg, V>`, the two const-generic carrier types of the
`Implicit`/`Explicit` re-tagging wrappers. -/
inductive RustType where
  | bool
  | i8
  | i16
  | i32
  | i64
  | i128
  | isize
  | u8
  | u16
  | u32
  | u64
  | u128
  | usize
  | integer
  | octetString
  | objectIdentifier
  | oid
  | constOid
  | bitString
  | utf8String
  | utcTime
  | generalizedTime
  | unit
  | str
  | other (n : Nat)
  | vec (t : RustType)
  | option (t : RustType)
  | setOf (t : RustType)
  | array (t : RustType) (n : Nat)
  | slice (t : RustType)
  | btreeMap (k : RustType) (v : RustType)
  | implicit (tg : Tag) (v : RustType)
  | explicit (tg : Tag) (v : RustType)
deriving DecidableEq, Repr

/-- The resolved `AsnType::TAG` of a Rust type expression, or `none` when
`src/types.rs` gives the type no `AsnType` implementation.  Each arm
transcribes one implementation of `src/types.rs`: the `asn_type!` arms for
the concrete types, `impl<T: AsnType> AsnType for Vec<T>` (tag SEQUENCE,
requiring `T: AsnType`), `impl<T: AsnType> AsnType for Option<T>` (tag
`T::TAG`), `impl<T> AsnType for SetOf<T>` (tag SET, no bound on T),
`impl<T: AsnType, const N: usize> AsnType for [T; N]` (tag SEQUENCE),
`impl<T> AsnType for &[T]` (tag SEQUENCE, no bound), `impl<K, V> AsnType
for BTreeMap<K, V>` (tag SEQUENCE, no bounds), and the two prefix-wrapper
implementations whose tag is the const-generic TAG parameter with no bound
on the inner type. -/
def asnTag : RustType → Option Tag
  | .bool => some Tag.BOOL
  | .i8 => some Tag.INTEGER
  | .i16 => some Tag.INTEGER
  | .i32 => some Tag.INTEGER
  | .i64 => some Tag.INTEGER
  | .i128 => some Tag.INTEGER
  | .isize => some Tag.INTEGER
  | .u8 => some Tag.INTEGER
  | .u16 => some Tag.INTEGER
  | .u32 => some Tag.INTEGER
  | .u64 => some Tag.INTEGER
  | .u128 => some Tag.INTEGER
  | .usize => some Tag.INTEGER
  | .integer => some Tag.INTEGER
  | .octetString => some Tag.OCTET_STRING
  | .objectIdentifier => some Tag.OBJECT_IDENTIFIER
  | .oid => some Tag.OBJECT_IDENTIFIER
  | .constOid => some Tag.OBJECT_IDENTIFIER
  | .bitString => some Tag.BIT_STRING
  | .utf8String => some Tag.UTF8_STRING
  | .utcTime => some Tag.UTC_TIME
  | .generalizedTime => some Tag.GENERALIZED_TIME
  | .unit => some Tag.NULL
  | .str => some Tag.UTF8_STRING
  | .other _ => none
  | .vec t => (asnTag t).map fun _ => Tag.SEQUENCE
  | .option t => asnTag t
  | .setOf _ => some Tag.SET
  | .array t _ => (asnTag t).map fun _ => Tag.SEQUENCE
  | .slice _ => some Tag.SEQUENCE
  | .btreeMap _ _ => some Tag.SEQUENCE
  | .implicit tg _ => some tg
  | .explicit tg _ => some tg

/-- Whether a Rust type expression implements `AsnType`, i.e. is
representable in ASN.1. -/
def isAsnType (t : RustType) : Bool := (asnTag t).isSome

/-- Whether a Rust type expression implements the `SequenceOf` marker
trait.  Transcribes the three implementations of `src/types.rs`:
`impl<A: AsnType> SequenceOf for Vec<A>`, `impl<A: AsnType, const N:
usize> SequenceOf for [A; N]`, and `impl<A: AsnType> SequenceOf for [A]`,
each requiring the element type to implement `AsnType`. -/
def isSequenceOf : RustType → Bool
  | .vec t => isAsnType t
  | .array t _ => isAsnType t
  | .slice t => isAsnType t
  | _ => false

/-- The alias `type IA5String = Implicit<{ Tag::IA5_STRING }, Utf8String>`
of `src/types.rs`. -/
def IA5String : RustType := .implicit Tag.IA5_STRING .utf8String

/-- The alias `type PrintableString = Implicit<{ Tag::PRINTABLE_STRING },
Utf8String>` of `src/types.rs`. -/
def PrintableString : RustType := .implicit Tag.PRINTABLE_STRING .utf8String

/-- The alias `type VisibleString = Implicit<{ Tag::VISIBLE_STRING },
Utf8String>` of `src/types.rs`. -/
def VisibleString : RustType := .implicit Tag.VISIBLE_STRING .utf8String

/-- The alias `type BmpString = Implicit<{ Tag::BMP_STRING }, Utf8String>`
of `src/types.rs`. -/
def BmpString : RustType := .implicit Tag.BMP_STRING .utf8String

/-- The alias `type UniversalString = Implicit<{ Tag::UNIVERSAL_STRING },
Utf8String>` of `src/types.rs`. -/
def UniversalString : RustType := .implicit Tag.UNIVERSAL_STRING .utf8String

/-- Whether a Rust type expression contains no prefix wrapper, i.e. no
occurrence of `Implicit` or `Explicit`. -/
def wrapperFree : RustType → Bool
  | .vec t => wrapperFree t
  | .option t => wrapperFree t
  | .setOf t => wrapperFree t
  | .array t _ => wrapperFree t
  | .slice t => wrapperFree t
  | .btreeMap k v => wrapperFree k && wrapperFree v
  | .implicit _ _ => false
  | .explicit _ _ => false
  | _ => true

/-- C1: for every tag value X and every inner type (whether representable
or not, and in particular when the inner type is itself a prefix wrapper),
the implicit-prefix wrapper resolves `Implicit<X, Inner>::TAG` to X; the
inner tag plays no role, since the result is the same for all inner
types. -/
theorem implicit_tag_is_override (x : Tag) (inner : RustType) :
    asnTag (.implicit x inner) = some x := rfl

/-- C2: for every tag value X and every inner type, the explicit-prefix
wrapper resolves `Explicit<X, Inner>::TAG` to X. -/
theorem explicit_tag_is_outer (x : Tag) (inner : RustType) :
    asnTag (.explicit x inner) = some x := rfl

/-- C3 counterexample: the sentinel "none" tag `Tag::EOC` is itself a
Universal-class tag — it is the tag with class Universal and number 0
(the end-of-contents tag of X.690) — so it is not "never equal to a
Universal-class tag". -/
theorem eoc_is_a_universal_class_tag :
    Tag.EOC = ⟨Class.universal, 0⟩ ∧ Tag.EOC.tagClass = Class.universal :=
  ⟨rfl, rfl⟩

/-- C3 amended: the sentinel "none" tag `Tag::EOC` that a CHOICE-representing
type must declare is the Universal-class tag of number 0 (end-of-contents);
while it is itself of Universal class, it never equals the resolved tag of
any type whose expression contains no prefix wrapper — in particular it
collides with none of the genuine Universal-class type tags the contract
assigns. -/
theorem eoc_sentinel_distinct (t : RustType) (g : Tag)
    (hw : wrapperFree t = true) (hg : asnTag t = some g) :
    Tag.EOC = ⟨Class.universal, 0⟩ ∧ g ≠ Tag.EOC := by
  refine ⟨rfl, ?_⟩
  induction t generalizing g with
  | vec t ih =>
      simp only [asnTag] at hg
      rcases Option.map_eq_some'.mp hg with ⟨a, _, h2⟩
      subst h2; decide
  | option t ih =>
      simp only [asnTag] at hg
      simp only [wrapperFree] at hw
      exact ih g hw hg
  | array t n ih =>
      simp only [asnTag] at hg
      rcases Option.map_eq_some'.mp hg with ⟨a, _, h2⟩
      subst h2; decide
  | implicit tg v ih => simp [wrapperFree] at hw
  | explicit tg v ih => simp [wrapperFree] at hw
  | other n => simp [asnTag] at hg
  | _ =>
      simp only [asnTag, Option.some.injEq] at hg
      subst hg
      decide

/-- C3 amended, witness at the concrete representable type `bool`. -/
theorem eoc_sentinel_distinct_witness :
    wrapperFree RustType.bool = true ∧ asnTag RustType.bool = some Tag.BOOL ∧
      (Tag.EOC = ⟨Class.universal, 0⟩ ∧ Tag.BOOL ≠ Tag.EOC) :=
  ⟨by decide, by decide, eoc_sentinel_distinct RustType.bool Tag.BOOL (by decide) (by decide)⟩

/-- C4: for every representable type T, `Option<T>::TAG` equals `T::TAG` —
the optional modifier leaves the resolved tag unchanged. -/
theorem option_tag_transparent (t : RustType) (h : isAsnType t = true) :
    asnTag (.option t) = asnTag t := rfl

/-- C4 witness at the concrete representable type `bool`. -/
theorem option_tag_transparent_witness :
    isAsnType RustType.bool = true ∧
      asnTag (.option RustType.bool) = asnTag RustType.bool :=
  ⟨by decide, option_tag_transparent RustType.bool (by decide)⟩

/-- C5: the resolved tag depends on the container kind, not the element
kind: for every representable T, `Vec<T>`, `[T; N]` and `&[T]` resolve to
SEQUENCE while `SetOf<T>` resolves to SET (hence `SetOf<T>` and `Vec<T>` of
the identical T resolve to different tags), and `BTreeMap<K, V>` resolves
to SEQUENCE for all K and V. -/
theorem container_tag_by_kind (t k v : RustType) (n : Nat)
    (h : isAsnType t = true) :
    asnTag (.vec t) = some Tag.SEQUENCE ∧
    asnTag (.array t n) = some Tag.SEQUENCE ∧
    asnTag (.slice t) = some Tag.SEQUENCE ∧
    asnTag (.setOf t) = some Tag.SET ∧
    asnTag (.setOf t) ≠ asnTag (.vec t) ∧
    asnTag (.btreeMap k v) = some Tag.SEQUENCE := by
  rcases Option.isSome_iff_exists.mp (by simpa [isAsnType] using h) with ⟨g, hg⟩
  refine ⟨?_, ?_, rfl, rfl, ?_, rfl⟩ <;> simp [asnTag, hg]
  decide

/-- C5 witness at T = bool, K = an opaque non-representable type,
V = bool, N = 3. -/
theorem container_tag_by_kind_witness :
    isAsnType RustType.bool = true ∧
      (asnTag (.vec RustType.bool) = some Tag.SEQUENCE ∧
       asnTag (.array RustType.bool 3) = some Tag.SEQUENCE ∧
       asnTag (.slice RustType.bool) = some Tag.SEQUENCE ∧
       asnTag (.setOf RustType.bool) = some Tag.SET ∧
       asnTag (.setOf RustType.bool) ≠ asnTag (.vec RustType.bool) ∧
       asnTag (.btreeMap (.other 0) RustType.bool) = some Tag.SEQUENCE) :=
  ⟨by decide, container_tag_by_kind RustType.bool (.other 0) RustType.bool 3 (by decide)⟩

/-- C6: every signed and unsigned fixed-width integer type and the
arbitrary-precision `Integer` type resolves its tag to INTEGER. -/
theorem integer_types_tag :
    asnTag .i8 = some Tag.INTEGER ∧ asnTag .i16 = some Tag.INTEGER ∧
    asnTag .i32 = some Tag.INTEGER ∧ asnTag .i64 = some Tag.INTEGER ∧
    asnTag .i128 = some Tag.INTEGER ∧ asnTag .isize = some Tag.INTEGER ∧
    asnTag .u8 = some Tag.INTEGER ∧ asnTag .u16 = some Tag.INTEGER ∧
    asnTag .u32 = some Tag.INTEGER ∧ asnTag .u64 = some Tag.INTEGER ∧
    asnTag .u128 = some Tag.INTEGER ∧ asnTag .usize = some Tag.INTEGER ∧
    asnTag .integer = some Tag.INTEGER := by
  decide

/-- C7: the `SequenceOf` marker holds for exactly the three constructors
`Vec<A>`, `[A; N]` and `[A]` with representable element type A, and for no
other type; in particular it holds for no `SetOf<T>` and no
`BTreeMap<K, V>`. -/
theorem sequenceOf_marker_exact (t : RustType) :
    (isSequenceOf t = true ↔
       ((∃ a, t = .vec a ∧ isAsnType a = true) ∨
        (∃ a n, t = .array a n ∧ isAsnType a = true) ∨
        (∃ a, t = .slice a ∧ isAsnType a = true))) ∧
    isSequenceOf (.setOf t) = false ∧
    (∀ k v : RustType, isSequenceOf (.btreeMap k v) = false) := by
  refine ⟨?_, rfl, fun _ _ => rfl⟩
  cases t <;> simp [isSequenceOf]

/-- C8: the unwrapped UTF-8 string types resolve to UTF8_STRING, while each
restricted-string alias is the implicit wrapper over `Utf8String` at its
own restricted-string tag constant and therefore resolves to that tag, not
UTF8_STRING. -/
theorem string_alias_tags :
    asnTag .str = some Tag.UTF8_STRING ∧
    asnTag .utf8String = some Tag.UTF8_STRING ∧
    IA5String = .implicit Tag.IA5_STRING .utf8String ∧
    asnTag IA5String = some Tag.IA5_STRING ∧
    Tag.IA5_STRING ≠ Tag.UTF8_STRING ∧
    PrintableString = .implicit Tag.PRINTABLE_STRING .utf8String ∧
    asnTag PrintableString = some Tag.PRINTABLE_STRING ∧
    Tag.PRINTABLE_STRING ≠ Tag.UTF8_STRING ∧
    VisibleString = .implicit Tag.VISIBLE_STRING .utf8String ∧
    asnTag VisibleString = some Tag.VISIBLE_STRING ∧
    Tag.VISIBLE_STRING ≠ Tag.UTF8_STRING ∧
    BmpString = .implicit Tag.BMP_STRING .utf8String ∧
    asnTag BmpString = some Tag.BMP_STRING ∧
    Tag.BMP_STRING ≠ Tag.UTF8_STRING ∧
    UniversalString = .implicit Tag.UNIVERSAL_STRING .utf8String ∧
    asnTag UniversalString = some Tag.UNIVERSAL_STRING ∧
    Tag.UNIVERSAL_STRING ≠ Tag.UTF8_STRING := by
  decide

/-- C9: `Vec<u8>` resolves to SEQUENCE via the generic `Vec<T>` rule (with
`u8` resolving to INTEGER), not to OCTET_STRING; only the dedicated
`OctetString` type resolves to OCTET_STRING, and the two tags differ. -/
theorem vec_u8_is_sequence_not_octet_string :
    asnTag (.vec .u8) = some Tag.SEQUENCE ∧
    asnTag .u8 = some Tag.INTEGER ∧
    asnTag .octetString = some Tag.OCTET_STRING ∧
    Tag.SEQUENCE ≠ Tag.OCTET_STRING := by
  decide

/-- C10: the `SetOf<T>`, `&[T]` and `BTreeMap<K, V>` tag bindings require
no representability of the element, key or value type — they resolve for
every type whatsoever — whereas the `Vec<T>` and `[T; N]` bindings exist
exactly when T is itself representable. -/
theorem unbounded_container_impls (t k v : RustType) (n : Nat) :
    asnTag (.setOf t) = some Tag.SET ∧
    asnTag (.slice t) = some Tag.SEQUENCE ∧
    asnTag (.btreeMap k v) = some Tag.SEQUENCE ∧
    (isAsnType (.vec t) = true ↔ isAsnType t = true) ∧
    (isAsnType (.array t n) = true ↔ isAsnType t = true) := by
  refine ⟨rfl, rfl, rfl, ?_, ?_⟩ <;>
    cases h : asnTag t <;> simp [isAsnType, asnTag, h]

end Rasn
